import Mathlib

/-!
Shallow embedding of the NPF-CRM records-management service.

Each definition mirrors one JavaScript function of the repository:
JS objects become structures, the Prisma-backed tables become lists of
records (primary-key order), and a handler becomes a pure function from
the request data and the table state to the HTTP status, error code and
the successor state.  JS truthiness on strings (empty string is falsy)
and on optional values is made explicit through small helpers.
-/

namespace NpfCrm

/-- JS truthiness of an optional string field: `undefined`, `null` and
the empty string are falsy, every other string is truthy. -/
def jsTruthy : Option String → Bool
  | none => false
  | some s => s ≠ ""

/-- JS `a || b` for an optional string: keeps `a` when truthy,
falls back to `b` otherwise. -/
def jsOrStr (a : Option String) (b : String) : String :=
  match a with
  | none => b
  | some s => if s = "" then b else s

/-- JS `a || b` for an optional number: `undefined` and `0` are falsy. -/
def jsOrNat (a : Option Nat) (b : Nat) : Nat :=
  match a with
  | none => b
  | some n => if n = 0 then b else n

/-- Characters strictly after the first `'-'` of the list, or `none`
when no dash occurs (JS `split('-')[1]` is then `undefined`). -/
def afterFirstDash : List Char → Option (List Char)
  | [] => none
  | c :: rest => if c = '-' then some rest else afterFirstDash rest

/-- Characters up to (excluding) the next `'-'`. -/
def untilDash : List Char → List Char
  | [] => []
  | c :: rest => if c = '-' then [] else c :: untilDash rest

/-- JS `s.split('-')[1]`: the fragment between the first and the second
dash; `none` when the string has no dash at all. -/
def splitSecond (s : String) : Option String :=
  (afterFirstDash s.data).map (fun l => String.mk (untilDash l))

/-- Numeric value of a list of decimal digit characters. -/
def digitsVal (l : List Char) : Nat :=
  l.foldl (fun n c => 10 * n + (c.toNat - 48)) 0

/-- JS `parseInt` restricted to the non-negative identifier suffixes this
service produces: reads the leading run of decimal digits; `none` stands
for `NaN` (no leading digit, or the argument was `undefined`). -/
def jsParseInt : Option String → Option Nat
  | none => none
  | some s =>
    let ds := s.data.takeWhile Char.isDigit
    if ds.isEmpty then none else some (digitsVal ds)

/-- A row of the `cases` table (migration `CREATE TABLE cases`). -/
structure CaseRec where
  id : Nat
  caseId : String
  type : String
  description : Option String
  status : String
  priority : String
  location : String
  reporter : Option String
  officerId : Option Nat
  createdById : Nat
  deriving Repr, DecidableEq

/-- A row of the `reports` table, the fields the report controller uses. -/
structure Report where
  id : Nat
  reportId : String
  type : String
  format : String
  notes : Option String
  caseId : Option Nat
  generatedById : Nat
  deriving Repr, DecidableEq

/-- Prisma `findFirst({orderBy: {id: 'desc'}})` over the cases table:
the row with the greatest primary key, `none` on the empty table. -/
def findFirstCaseByIdDesc (cases : List CaseRec) : Option CaseRec :=
  cases.foldl
    (fun acc c =>
      match acc with
      | none => some c
      | some b => if b.id < c.id then some c else some b)
    none

/-- Prisma `findFirst({orderBy: {id: 'desc'}})` over the reports table. -/
def findFirstReportByIdDesc (reports : List Report) : Option Report :=
  reports.foldl
    (fun acc r =>
      match acc with
      | none => some r
      | some b => if b.id < r.id then some r else some b)
    none

/-- Embedding of `generateCaseId` (case.controller.js): seed `CA-0001` on an empty
table, otherwise `CA-` followed by one plus the parsed suffix of the
most-recently-created row's `caseId`; `CA-NaN` when that suffix does not
parse (JS `NaN` interpolation). -/
def generateCaseId (cases : List CaseRec) : String :=
  match findFirstCaseByIdDesc cases with
  | none => "CA-0001"
  | some lastCase =>
    match jsParseInt (splitSecond lastCase.caseId) with
    | some lastNumber => "CA-" ++ toString (lastNumber + 1)
    | none => "CA-NaN"

/-- Embedding of `generateReportId` (report.controller.js): seed `RPT-1026` on an
empty table, otherwise `RPT-` followed by one plus the parsed suffix of
the most-recently-created row's `reportId`. -/
def generateReportId (reports : List Report) : String :=
  match findFirstReportByIdDesc reports with
  | none => "RPT-1026"
  | some lastReport =>
    match jsParseInt (splitSecond lastReport.reportId) with
    | some lastNumber => "RPT-" ++ toString (lastNumber + 1)
    | none => "RPT-NaN"

/-- The numeric suffix of a generated identifier, `none` for `NaN`. -/
def idSuffix (s : String) : Option Nat :=
  jsParseInt (splitSecond s)

/-- Greatest parsed `caseId` suffix over a whole cases table (0 when
nothing parses); used to state the maximum-suffix allocation claim. -/
def maxCaseSuffix (cases : List CaseRec) : Nat :=
  (cases.filterMap (fun c => idSuffix c.caseId)).foldl max 0

/-- A row of the `user` table, the fields the controllers select. -/
structure User where
  id : Nat
  username : String
  email : Option String
  role : String
  name : String
  department : String
  status : String
  password : String
  deriving Repr, DecidableEq

/-- Result of the `authenticate` middleware once the JWT signature check
has succeeded: either a 401 rejection with its error code, or the
resolved account attached to the request context (`req.user`). -/
inductive AuthResult where
  | unauthorized (status : Nat) (code : String)
  | ok (u : User)
  deriving Repr, DecidableEq

/-- Embedding of `authenticate` (auth middleware) after a successful token
verification: `findUnique({where: {id: decoded.userId}})`, then the
user-existence and active-status checks, in source order. -/
def authenticateDecoded (decodedUserId : Nat) (users : List User) : AuthResult :=
  match users.find? (fun u => u.id == decodedUserId) with
  | none => .unauthorized 401 "USER_NOT_FOUND"
  | some u =>
    if u.status ≠ "active" then .unauthorized 401 "INACTIVE_USER"
    else .ok u

/-- Result of a role-gate middleware: halt with a status and code, or
pass control to the next handler with the request user. -/
inductive GateResult where
  | halt (status : Nat) (code : String)
  | next (u : User)
  deriving Repr, DecidableEq

/-- Embedding of `requireAdmin` (admin middleware): 401 `NO_AUTH` when no user is
attached, 403 `FORBIDDEN` for any role other than `admin`. -/
def requireAdmin (reqUser : Option User) : GateResult :=
  match reqUser with
  | none => .halt 401 "NO_AUTH"
  | some u => if u.role ≠ "admin" then .halt 403 "FORBIDDEN" else .next u

/-- An express delete route `router.delete(path, authenticate,
requireAdmin, handler)` after authentication has attached `reqUser`:
when the gate halts, its response is sent and the handler never runs, so
the table state is returned unchanged.  All five delete routes (cases,
officers, reports, incidents, users) have exactly this shape. -/
def deleteRoute {σ : Type} (handler : User → σ → Nat × Option String × σ)
    (reqUser : User) (st : σ) : Nat × Option String × σ :=
  match requireAdmin (some reqUser) with
  | .halt s c => (s, some c, st)
  | .next u => handler u st

/-- Embedding of `deleteUser` (user.controller.js): self-delete guard first; then a
missing target makes `prisma.user.delete` throw `P2025`, which the
central error handler turns into 404 `NOT_FOUND`; otherwise the row is
removed. -/
def deleteUser (reqUser : User) (uid : Nat) (db : List User) :
    Nat × Option String × List User :=
  if reqUser.id == uid then (400, some "SELF_DELETE", db)
  else if (db.find? (fun u => u.id == uid)).isNone then
    (404, some "NOT_FOUND", db)
  else (200, none, db.filter (fun u => u.id != uid))

/-- The full `DELETE /api/users/:id` pipeline (userRoutes):
`authenticate, requireAdmin, deleteUser`. -/
def deleteUserEndpoint (reqUser : User) (uid : Nat) (db : List User) :
    Nat × Option String × List User :=
  deleteRoute (fun u st => deleteUser u uid st) reqUser db

/-- A JS error object as the central error handler inspects it. -/
structure JsError where
  name : Option String
  code : Option String
  message : Option String
  statusCode : Option Nat
  deriving Repr, DecidableEq

/-- Embedding of `errorHandler` (middleware/errorHandler.js): Prisma `P2002` → 409
`DUPLICATE_ENTRY`, Prisma `P2025` → 404 `NOT_FOUND`, `ValidationError`
→ 400 `VALIDATION_ERROR`, and the default branch
`err.statusCode || 500` with `err.code || 'INTERNAL_ERROR'`. -/
def errorHandler (err : JsError) : Nat × String :=
  if err.code == some "P2002" then (409, "DUPLICATE_ENTRY")
  else if err.code == some "P2025" then (404, "NOT_FOUND")
  else if err.name == some "ValidationError" then (400, "VALIDATION_ERROR")
  else (jsOrNat err.statusCode 500, jsOrStr err.code "INTERNAL_ERROR")

/-- Substring test on character lists: some contiguous run of `s`
equals `p` (the empty pattern always matches). -/
def isInfixChars (p : List Char) : List Char → Bool
  | [] => p.isEmpty
  | c :: rest => p.isPrefixOf (c :: rest) || isInfixChars p rest

/-- Prisma `{ contains: sub }` on a string column, modelled as a plain
substring test. -/
def strContains (s sub : String) : Bool :=
  isInfixChars sub.data s.data

/-- The officer lookup of `createCase` / `updateCase`:
`findFirst({where: {OR: [{username: officer}, {name: {contains:
officer}}]}})` — first table row whose username equals the query or
whose name contains it. -/
def findOfficerUser (officer : String) (users : List User) : Option User :=
  users.find? (fun u => u.username == officer || strContains u.name officer)

/-- The `req.body` of `POST /api/cases`; absent JSON fields are `none`. -/
structure CreateCaseBody where
  type : Option String
  priority : Option String
  description : Option String
  location : Option String
  reporter : Option String
  officer : Option String
  status : Option String
  deriving Repr, DecidableEq

/-- The formatted `officer` field of a case response:
`officer?.name || officer?.username || 'Unassigned'`, where the officer
relation is resolved from the `officerId` foreign key. -/
def formatOfficer (officerId : Option Nat) (users : List User) : String :=
  match officerId with
  | none => "Unassigned"
  | some uid =>
    match users.find? (fun u => u.id == uid) with
    | none => "Unassigned"
    | some u =>
      if u.name ≠ "" then u.name
      else if u.username ≠ "" then u.username
      else "Unassigned"

/-- Next AUTO_INCREMENT primary key for the cases table, modelled as one
past the greatest key in use. -/
def nextCaseDbId (cases : List CaseRec) : Nat :=
  (cases.foldl (fun m c => max m c.id) 0) + 1

/-- Outcome of the `createCase` handler: HTTP status, error code,
the row written (`none` on a 400), the formatted `officer` response
field, and the successor table state. -/
structure CreateCaseResult where
  httpStatus : Nat
  code : Option String
  created : Option CaseRec
  officerField : Option String
  cases : List CaseRec
  deriving Repr, DecidableEq

/-- Embedding of `createCase` (case.controller.js): 400 `MISSING_FIELDS` when `type`
or `location` is falsy; otherwise generates the case id, resolves the
optional officer string (an unmatched string leaves `officerId` null),
writes the row with defaults `status: 'open'` and `priority: 'medium'`,
and answers 201. -/
def createCase (body : CreateCaseBody) (reqUser : User) (users : List User)
    (cases : List CaseRec) : CreateCaseResult :=
  if !(jsTruthy body.type) || !(jsTruthy body.location) then
    ⟨400, some "MISSING_FIELDS", none, none, cases⟩
  else
    let caseId := generateCaseId cases
    let officerId : Option Nat :=
      if jsTruthy body.officer then
        match findOfficerUser (body.officer.getD "") users with
        | some u => some u.id
        | none => none
      else none
    let newCase : CaseRec :=
      ⟨nextCaseDbId cases, caseId, body.type.getD "", body.description,
        jsOrStr body.status "open", jsOrStr body.priority "medium",
        body.location.getD "", body.reporter, officerId, reqUser.id⟩
    ⟨201, none, some newCase, some (formatOfficer officerId users),
      cases ++ [newCase]⟩

/-- The `req.body` of `PATCH /api/users/:id`. -/
structure UpdateUserBody where
  email : Option String
  role : Option String
  name : Option String
  department : Option String
  status : Option String
  password : Option String
  deriving Repr, DecidableEq

/-- Stand-in for `bcrypt.hash`: an opaque-to-the-spec digest whose value
no claim depends on. -/
def bcryptHash (plain : String) : String :=
  "bcrypt$" ++ plain

/-- The partial field merge `updateUser` applies to the target row:
`email`, `name`, `department` when truthy; `role` and `status` only
when the requester is an admin; `password` hashed when provided. -/
def applyUserUpdate (reqUser : User) (b : UpdateUserBody) (u : User) : User :=
  ⟨u.id, u.username,
    (if jsTruthy b.email then b.email else u.email),
    (if reqUser.role == "admin" && jsTruthy b.role then b.role.getD u.role
     else u.role),
    (if jsTruthy b.name then b.name.getD u.name else u.name),
    (if jsTruthy b.department then b.department.getD u.department
     else u.department),
    (if reqUser.role == "admin" && jsTruthy b.status then
      b.status.getD u.status
     else u.status),
    (if jsTruthy b.password then bcryptHash (b.password.getD "")
     else u.password)⟩

/-- Embedding of `updateUser` (user.controller.js): 403 `FORBIDDEN` unless the target
is the requester itself or the requester is an admin; 400
`WEAK_PASSWORD` for a provided password shorter than 6; a missing
target makes `prisma.user.update` throw `P2025`, surfaced as 404 by the
central error handler; otherwise the merge is applied to the target
row. -/
def updateUser (reqUser : User) (uid : Nat) (b : UpdateUserBody)
    (db : List User) : Nat × Option String × List User :=
  if reqUser.id != uid && reqUser.role != "admin" then
    (403, some "FORBIDDEN", db)
  else if jsTruthy b.password && (b.password.getD "").length < 6 then
    (400, some "WEAK_PASSWORD", db)
  else if (db.find? (fun u => u.id == uid)).isNone then
    (404, some "NOT_FOUND", db)
  else
    (200, none,
      db.map (fun u => if u.id == uid then applyUserUpdate reqUser b u else u))

/-- The payload of `GET /api/cases/statistics`. -/
structure CaseStatistics where
  total : Nat
  open_ : Nat
  investigation : Nat
  resolved : Nat
  priority : Nat
  deriving Repr, DecidableEq

/-- Embedding of `getCaseStatistics` (case.controller.js): five independent count
queries over the same table snapshot — the total and the counts of
status `open`, `investigation`, `resolved` and priority `high`. -/
def getCaseStatistics (cases : List CaseRec) : CaseStatistics :=
  ⟨cases.length,
    (cases.filter (fun c => c.status == "open")).length,
    (cases.filter (fun c => c.status == "investigation")).length,
    (cases.filter (fun c => c.status == "resolved")).length,
    (cases.filter (fun c => c.priority == "high")).length⟩

/-- Count of cases whose status is none of the three dashboard
statuses; the spec's "count with any other status". -/
def otherStatusCount (cases : List CaseRec) : Nat :=
  (cases.filter (fun c =>
    !(c.status == "open" || c.status == "investigation"
      || c.status == "resolved"))).length

/-! ## Claim theorems -/

/-- C1 counterexample: with the last (and only) case holding identifier
`CA-0042`, the allocator returns `CA-43`, not the zero-padded `CA-0043`
the claim announces — the template `CA-${n+1}` never re-pads. -/
theorem generateCaseId_no_padding_cex :
    generateCaseId
        [⟨1, "CA-0042", "theft", none, "open", "medium", "Wuse II", none,
          none, 1⟩]
      = "CA-43"
    ∧ ("CA-43" : String) ≠ "CA-0043" := by
  constructor
  · decide
  · decide

/-- C1 (amended): on an empty cases table the allocator returns the seed
`CA-0001`; when the most-recently-created case holds identifier
`CA-0042`, the allocator returns `CA-43` (plain, unpadded suffix). -/
theorem generateCaseId_seed_and_increment :
    generateCaseId [] = "CA-0001"
    ∧ ∀ (cases : List CaseRec) (c : CaseRec),
        findFirstCaseByIdDesc cases = some c → c.caseId = "CA-0042" →
        generateCaseId cases = "CA-43" := by
  constructor
  · rfl
  · intro cases c hlast hid
    unfold generateCaseId
    rw [hlast]
    dsimp only
    rw [hid]
    decide

/-- C1 witness: the amended statement evaluated on the empty table and
on a concrete one-row table whose case holds `CA-0042`. -/
theorem generateCaseId_seed_and_increment_witness :
    generateCaseId [] = "CA-0001"
    ∧ generateCaseId
        [⟨7, "CA-0042", "theft", none, "open", "medium", "Wuse II", none,
          none, 1⟩]
      = "CA-43" :=
  ⟨generateCaseId_seed_and_increment.1,
    generateCaseId_seed_and_increment.2
      [⟨7, "CA-0042", "theft", none, "open", "medium", "Wuse II", none,
        none, 1⟩]
      ⟨7, "CA-0042", "theft", none, "open", "medium", "Wuse II", none,
        none, 1⟩
      (by decide) (by decide)⟩

/-- C2 counterexample: on a table whose most-recently-created row
(`id = 2`, `CA-3`) does not carry the maximum suffix (`CA-5` on
`id = 1`), the allocator yields suffix 4, not `1 + 5`: it reads the
last-created row, not the maximum-suffix row. -/
theorem generateCaseId_not_max_suffix_cex :
    idSuffix
        (generateCaseId
          [⟨1, "CA-5", "theft", none, "open", "medium", "A", none, none, 1⟩,
           ⟨2, "CA-3", "fraud", none, "open", "medium", "B", none, none, 1⟩])
      = some 4
    ∧ maxCaseSuffix
        [⟨1, "CA-5", "theft", none, "open", "medium", "A", none, none, 1⟩,
         ⟨2, "CA-3", "fraud", none, "open", "medium", "B", none, none, 1⟩]
      = 5
    ∧ (4 : Nat) ≠ 5 + 1 := by
  refine ⟨by decide, by decide, by decide⟩

/-- C2 (amended): for both kinds, the allocator derives the next code
from the most-recently-created record (the row with the greatest
primary key), not from the maximum suffix: when that row's identifier
suffix parses as `n`, the new identifier is the fixed prefix followed
by `n + 1`. -/
theorem allocators_follow_last_created :
    (∀ (cases : List CaseRec) (c : CaseRec) (n : Nat),
      findFirstCaseByIdDesc cases = some c →
      jsParseInt (splitSecond c.caseId) = some n →
      generateCaseId cases = "CA-" ++ toString (n + 1))
    ∧ (∀ (reports : List Report) (r : Report) (n : Nat),
      findFirstReportByIdDesc reports = some r →
      jsParseInt (splitSecond r.reportId) = some n →
      generateReportId reports = "RPT-" ++ toString (n + 1)) := by
  constructor
  · intro cases c n hlast hparse
    unfold generateCaseId
    rw [hlast]
    dsimp only
    rw [hparse]
  · intro reports r n hlast hparse
    unfold generateReportId
    rw [hlast]
    dsimp only
    rw [hparse]

/-- C2 witness: the amended statement evaluated on concrete one-row
case and report tables. -/
theorem allocators_follow_last_created_witness :
    generateCaseId
        [⟨1, "CA-5", "theft", none, "open", "medium", "A", none, none, 1⟩]
      = "CA-" ++ toString (5 + 1)
    ∧ generateReportId [⟨1, "RPT-1030", "Monthly", "PDF", none, none, 1⟩]
      = "RPT-" ++ toString (1030 + 1) :=
  ⟨allocators_follow_last_created.1
      [⟨1, "CA-5", "theft", none, "open", "medium", "A", none, none, 1⟩]
      ⟨1, "CA-5", "theft", none, "open", "medium", "A", none, none, 1⟩ 5
      (by decide) (by decide),
    allocators_follow_last_created.2
      [⟨1, "RPT-1030", "Monthly", "PDF", none, none, 1⟩]
      ⟨1, "RPT-1030", "Monthly", "PDF", none, none, 1⟩ 1030
      (by decide) (by decide)⟩

/-- C3: for every table snapshot, the status-partitioned counts of the
statistics endpoint sum back to the total —
`open + investigation + resolved + others = total`. -/
theorem caseStatistics_partition (cases : List CaseRec) :
    (getCaseStatistics cases).open_ + (getCaseStatistics cases).investigation
      + (getCaseStatistics cases).resolved + otherStatusCount cases
      = (getCaseStatistics cases).total := by
  induction cases with
  | nil => rfl
  | cons a l ih =>
    by_cases h1 : a.status = "open"
    · simp [getCaseStatistics, otherStatusCount, List.filter_cons, h1]
        at ih ⊢
      omega
    · by_cases h2 : a.status = "investigation"
      · simp [getCaseStatistics, otherStatusCount, List.filter_cons, h1, h2]
          at ih ⊢
        omega
      · by_cases h3 : a.status = "resolved"
        · simp [getCaseStatistics, otherStatusCount, List.filter_cons, h1,
            h2, h3] at ih ⊢
          omega
        · simp [getCaseStatistics, otherStatusCount, List.filter_cons, h1,
            h2, h3] at ih ⊢
          omega

/-- C4 counterexample: an authenticated non-admin (role `officer`)
deleting its own id is stopped by the `requireAdmin` gate with 403
`FORBIDDEN` — the `SELF_DELETE` branch of the handler is never
reached, so the claimed "any role" rejection code is wrong. -/
theorem deleteUser_nonadmin_self_cex :
    deleteUserEndpoint
        ⟨5, "ojo", none, "officer", "Ojo A", "General", "active", "pw"⟩ 5
        [⟨5, "ojo", none, "officer", "Ojo A", "General", "active", "pw"⟩]
      = (403, some "FORBIDDEN",
          [⟨5, "ojo", none, "officer", "Ojo A", "General", "active", "pw"⟩])
    ∧ (some "FORBIDDEN" : Option String) ≠ some "SELF_DELETE" := by
  refine ⟨by decide, by decide⟩

/-- C4 (amended): a self-targeting `DELETE /api/users/:id` is always
rejected and removes nothing; the code is `SELF_DELETE` (HTTP 400)
when the requester is an admin, and `FORBIDDEN` (HTTP 403) when the
requester is a non-admin, stopped earlier by the admin gate. -/
theorem deleteUser_self_guard (reqUser : User) (db : List User) :
    (reqUser.role = "admin" →
      deleteUserEndpoint reqUser reqUser.id db = (400, some "SELF_DELETE", db))
    ∧ (reqUser.role ≠ "admin" →
      deleteUserEndpoint reqUser reqUser.id db
        = (403, some "FORBIDDEN", db)) := by
  constructor
  · intro hadmin
    simp [deleteUserEndpoint, deleteRoute, requireAdmin, deleteUser, hadmin]
  · intro hrole
    simp [deleteUserEndpoint, deleteRoute, requireAdmin, hrole]

/-- C4 witness: the amended statement evaluated for a concrete admin
and a concrete officer, each targeting its own id. -/
theorem deleteUser_self_guard_witness :
    deleteUserEndpoint
        ⟨1, "root", none, "admin", "Root", "HQ", "active", "pw"⟩ 1
        [⟨1, "root", none, "admin", "Root", "HQ", "active", "pw"⟩]
      = (400, some "SELF_DELETE",
          [⟨1, "root", none, "admin", "Root", "HQ", "active", "pw"⟩])
    ∧ deleteUserEndpoint
        ⟨2, "ojo", none, "officer", "Ojo", "General", "active", "pw"⟩ 2
        [⟨2, "ojo", none, "officer", "Ojo", "General", "active", "pw"⟩]
      = (403, some "FORBIDDEN",
          [⟨2, "ojo", none, "officer", "Ojo", "General", "active", "pw"⟩]) :=
  ⟨(deleteUser_self_guard
      ⟨1, "root", none, "admin", "Root", "HQ", "active", "pw"⟩
      [⟨1, "root", none, "admin", "Root", "HQ", "active", "pw"⟩]).1
    (by decide),
  (deleteUser_self_guard
      ⟨2, "ojo", none, "officer", "Ojo", "General", "active", "pw"⟩
      [⟨2, "ojo", none, "officer", "Ojo", "General", "active", "pw"⟩]).2
    (by decide)⟩

/-- C5 counterexample: an error named `ValidationError` carries neither
Prisma code yet is mapped to HTTP 400, not the claimed 500 — the
central handler has a fourth branch the claim omits. -/
theorem errorHandler_validation_cex :
    errorHandler ⟨some "ValidationError", none, some "bad input", none⟩
      = (400, "VALIDATION_ERROR")
    ∧ (⟨some "ValidationError", none, some "bad input", none⟩ : JsError).code
        ≠ some "P2002"
    ∧ (⟨some "ValidationError", none, some "bad input", none⟩ : JsError).code
        ≠ some "P2025"
    ∧ (400 : Nat) ≠ 500 := by
  refine ⟨by decide, by decide, by decide, by decide⟩

/-- C5 (amended): the central handler maps Prisma `P2002` to 409
`DUPLICATE_ENTRY` and `P2025` to 404 `NOT_FOUND`; of the remaining
errors, those named `ValidationError` map to 400, and every other
error maps to its own truthy `statusCode` when present, else to 500. -/
theorem errorHandler_mapping (e : JsError) :
    (e.code = some "P2002" → errorHandler e = (409, "DUPLICATE_ENTRY"))
    ∧ (e.code = some "P2025" → errorHandler e = (404, "NOT_FOUND"))
    ∧ (e.code ≠ some "P2002" → e.code ≠ some "P2025" →
        e.name = some "ValidationError" →
        errorHandler e = (400, "VALIDATION_ERROR"))
    ∧ (e.code ≠ some "P2002" → e.code ≠ some "P2025" →
        e.name ≠ some "ValidationError" → e.statusCode = none →
        (errorHandler e).1 = 500)
    ∧ (∀ n : Nat, e.code ≠ some "P2002" → e.code ≠ some "P2025" →
        e.name ≠ some "ValidationError" → e.statusCode = some n → n ≠ 0 →
        (errorHandler e).1 = n) := by
  refine ⟨?_, ?_, ?_, ?_, ?_⟩
  · intro h
    simp [errorHandler, h]
  · intro h
    simp [errorHandler, h]
  · intro h1 h2 h3
    simp [errorHandler, h1, h2, h3]
  · intro h1 h2 h3 h4
    simp [errorHandler, h1, h2, h3, h4, jsOrNat]
  · intro n h1 h2 h3 h4 h5
    simp [errorHandler, h1, h2, h3, h4, jsOrNat, h5]

/-- C5 witness: the amended mapping evaluated on five concrete errors,
one per branch. -/
theorem errorHandler_mapping_witness :
    errorHandler ⟨none, some "P2002", none, none⟩ = (409, "DUPLICATE_ENTRY")
    ∧ errorHandler ⟨none, some "P2025", none, none⟩ = (404, "NOT_FOUND")
    ∧ errorHandler ⟨some "ValidationError", none, none, none⟩
        = (400, "VALIDATION_ERROR")
    ∧ (errorHandler ⟨none, none, some "boom", none⟩).1 = 500
    ∧ (errorHandler ⟨none, some "NO_TOKEN", none, some 401⟩).1 = 401 :=
  ⟨(errorHandler_mapping ⟨none, some "P2002", none, none⟩).1 (by decide),
    (errorHandler_mapping ⟨none, some "P2025", none, none⟩).2.1 (by decide),
    (errorHandler_mapping ⟨some "ValidationError", none, none, none⟩).2.2.1
      (by decide) (by decide) (by decide),
    (errorHandler_mapping ⟨none, none, some "boom", none⟩).2.2.2.1
      (by decide) (by decide) (by decide) (by decide),
    (errorHandler_mapping ⟨none, some "NO_TOKEN", none, some 401⟩).2.2.2.2 401
      (by decide) (by decide) (by decide) (by decide) (by decide)⟩

/-- C6: a `POST /api/cases` by any authenticated non-admin with body
`{type: "theft", location: "Wuse II"}` (no status, no priority)
answers 201 with no error code, and the created row carries the
defaults `status: "open"` and `priority: "medium"`. -/
theorem createCase_defaults (reqUser : User) (users : List User)
    (cases : List CaseRec) (_hrole : reqUser.role ≠ "admin") :
    (createCase ⟨some "theft", none, none, some "Wuse II", none, none, none⟩
        reqUser users cases).httpStatus = 201
    ∧ (createCase ⟨some "theft", none, none, some "Wuse II", none, none, none⟩
        reqUser users cases).code = none
    ∧ (createCase ⟨some "theft", none, none, some "Wuse II", none, none, none⟩
        reqUser users cases).created.map CaseRec.status = some "open"
    ∧ (createCase ⟨some "theft", none, none, some "Wuse II", none, none, none⟩
        reqUser users cases).created.map CaseRec.priority = some "medium" := by
  refine ⟨rfl, rfl, rfl, rfl⟩

/-- C6 witness: the scenario evaluated for a concrete officer account
on concrete empty tables. -/
theorem createCase_defaults_witness :
    (createCase ⟨some "theft", none, none, some "Wuse II", none, none, none⟩
        ⟨2, "ojo", none, "officer", "Ojo", "General", "active", "pw"⟩ []
        []).httpStatus = 201
    ∧ (createCase ⟨some "theft", none, none, some "Wuse II", none, none, none⟩
        ⟨2, "ojo", none, "officer", "Ojo", "General", "active", "pw"⟩ []
        []).code = none
    ∧ (createCase ⟨some "theft", none, none, some "Wuse II", none, none, none⟩
        ⟨2, "ojo", none, "officer", "Ojo", "General", "active", "pw"⟩ []
        []).created.map CaseRec.status = some "open"
    ∧ (createCase ⟨some "theft", none, none, some "Wuse II", none, none, none⟩
        ⟨2, "ojo", none, "officer", "Ojo", "General", "active", "pw"⟩ []
        []).created.map CaseRec.priority = some "medium" :=
  createCase_defaults
    ⟨2, "ojo", none, "officer", "Ojo", "General", "active", "pw"⟩ [] []
    (by decide)

/-- C7: after a successful token verification, the middleware rejects
with 401 `USER_NOT_FOUND` when the decoded subject matches no account,
with 401 `INACTIVE_USER` when the matched account is not active, and
otherwise attaches exactly the matched account and passes control on. -/
theorem authenticate_subject_resolution (decodedUserId : Nat)
    (users : List User) :
    (users.find? (fun u => u.id == decodedUserId) = none →
      authenticateDecoded decodedUserId users
        = .unauthorized 401 "USER_NOT_FOUND")
    ∧ (∀ u, users.find? (fun u => u.id == decodedUserId) = some u →
        u.status ≠ "active" →
        authenticateDecoded decodedUserId users
          = .unauthorized 401 "INACTIVE_USER")
    ∧ (∀ u, users.find? (fun u => u.id == decodedUserId) = some u →
        u.status = "active" →
        authenticateDecoded decodedUserId users = .ok u) := by
  refine ⟨?_, ?_, ?_⟩
  · intro h
    simp [authenticateDecoded, h]
  · intro u h hst
    simp [authenticateDecoded, h, hst]
  · intro u h hst
    simp [authenticateDecoded, h, hst]

/-- C7 witness: the three branches evaluated on a concrete two-account
store — an unknown subject, an inactive account, an active one. -/
theorem authenticate_subject_resolution_witness :
    authenticateDecoded 9
        [⟨1, "root", none, "admin", "Root", "HQ", "active", "pw"⟩,
         ⟨2, "ojo", none, "officer", "Ojo", "General", "inactive", "pw"⟩]
      = .unauthorized 401 "USER_NOT_FOUND"
    ∧ authenticateDecoded 2
        [⟨1, "root", none, "admin", "Root", "HQ", "active", "pw"⟩,
         ⟨2, "ojo", none, "officer", "Ojo", "General", "inactive", "pw"⟩]
      = .unauthorized 401 "INACTIVE_USER"
    ∧ authenticateDecoded 1
        [⟨1, "root", none, "admin", "Root", "HQ", "active", "pw"⟩,
         ⟨2, "ojo", none, "officer", "Ojo", "General", "inactive", "pw"⟩]
      = .ok ⟨1, "root", none, "admin", "Root", "HQ", "active", "pw"⟩ :=
  ⟨(authenticate_subject_resolution 9
      [⟨1, "root", none, "admin", "Root", "HQ", "active", "pw"⟩,
       ⟨2, "ojo", none, "officer", "Ojo", "General", "inactive", "pw"⟩]).1
    (by decide),
  (authenticate_subject_resolution 2
      [⟨1, "root", none, "admin", "Root", "HQ", "active", "pw"⟩,
       ⟨2, "ojo", none, "officer", "Ojo", "General", "inactive", "pw"⟩]).2.1
    ⟨2, "ojo", none, "officer", "Ojo", "General", "inactive", "pw"⟩
    (by decide) (by decide),
  (authenticate_subject_resolution 1
      [⟨1, "root", none, "admin", "Root", "HQ", "active", "pw"⟩,
       ⟨2, "ojo", none, "officer", "Ojo", "General", "inactive", "pw"⟩]).2.2
    ⟨1, "root", none, "admin", "Root", "HQ", "active", "pw"⟩
    (by decide) (by decide)⟩

/-- C8: every admin-gated delete route (the shape shared by the cases,
officers, reports, incidents and users delete endpoints), invoked by
an authenticated account whose role is not `admin`, answers 403
`FORBIDDEN` and leaves the table state unchanged — whatever the
handler behind the gate would have done. -/
theorem deleteRoute_nonadmin_forbidden {σ : Type}
    (handler : User → σ → Nat × Option String × σ) (reqUser : User)
    (st : σ) (hrole : reqUser.role ≠ "admin") :
    deleteRoute handler reqUser st = (403, some "FORBIDDEN", st) := by
  simp [deleteRoute, requireAdmin, hrole]

/-- C8 witness: a concrete officer hitting the users delete route; the
response is 403 `FORBIDDEN` and the one-row table survives intact. -/
theorem deleteRoute_nonadmin_forbidden_witness :
    deleteRoute (fun u st => deleteUser u 1 st)
        ⟨2, "ojo", none, "officer", "Ojo", "General", "active", "pw"⟩
        [⟨1, "root", none, "admin", "Root", "HQ", "active", "pw"⟩]
      = (403, some "FORBIDDEN",
          [⟨1, "root", none, "admin", "Root", "HQ", "active", "pw"⟩]) :=
  deleteRoute_nonadmin_forbidden (fun u st => deleteUser u 1 st)
    ⟨2, "ojo", none, "officer", "Ojo", "General", "active", "pw"⟩
    [⟨1, "root", none, "admin", "Root", "HQ", "active", "pw"⟩]
    (by decide)

/-- C9: a `PATCH /api/users/:id` by a non-admin on its own id leaves
the `(id, role, status)` projection of the whole user table unchanged,
whatever role or status values the request body carries — the merge
admits `role` and `status` only from admins. -/
theorem updateUser_nonadmin_preserves_role_status (reqUser : User)
    (b : UpdateUserBody) (db : List User) (hrole : reqUser.role ≠ "admin") :
    ((updateUser reqUser reqUser.id b db).2.2).map
        (fun u => (u.id, u.role, u.status))
      = db.map (fun u => (u.id, u.role, u.status)) := by
  unfold updateUser
  have hcond : (reqUser.id != reqUser.id && reqUser.role != "admin") = false := by
    simp
  rw [hcond]
  simp only [Bool.false_eq_true, if_false]
  by_cases hpw : (jsTruthy b.password && (b.password.getD "").length < 6) = true
  · rw [if_pos hpw]
  · rw [if_neg hpw]
    by_cases hfind : (db.find? (fun u => u.id == reqUser.id)).isNone = true
    · rw [if_pos hfind]
    · rw [if_neg hfind]
      simp only [List.map_map]
      apply List.map_congr_left
      intro u _
      by_cases hid : u.id == reqUser.id
      · simp only [Function.comp, hid, if_pos]
        simp [applyUserUpdate, hrole]
      · simp only [Function.comp, hid, if_neg]
        simp at hid
        simp [hid]

/-- C9 witness: a concrete officer self-update whose body smuggles
`role: "admin"` and `status: "inactive"`; the stored role and status
survive. -/
theorem updateUser_nonadmin_preserves_role_status_witness :
    ((updateUser ⟨2, "ojo", none, "officer", "Ojo", "General", "active", "pw"⟩
        2 ⟨some "o@npf.ng", some "admin", none, none, some "inactive", none⟩
        [⟨2, "ojo", none, "officer", "Ojo", "General", "active", "pw"⟩]).2.2).map
      (fun u => (u.id, u.role, u.status))
      = ([⟨2, "ojo", none, "officer", "Ojo", "General", "active", "pw"⟩]
          : List User).map (fun u => (u.id, u.role, u.status)) :=
  updateUser_nonadmin_preserves_role_status
    ⟨2, "ojo", none, "officer", "Ojo", "General", "active", "pw"⟩
    ⟨some "o@npf.ng", some "admin", none, none, some "inactive", none⟩
    [⟨2, "ojo", none, "officer", "Ojo", "General", "active", "pw"⟩]
    (by decide)

/-- C10: a `POST /api/cases` whose truthy officer string matches no
account (neither username equality nor name containment — the lookup
query returns nothing) still succeeds: HTTP 201, no error code, the
written row has a null `officerId`, and the response reports officer
`Unassigned`. -/
theorem createCase_unmatched_officer (reqUser : User) (users : List User)
    (cases : List CaseRec) (body : CreateCaseBody)
    (htype : jsTruthy body.type = true)
    (hloc : jsTruthy body.location = true)
    (hoff : jsTruthy body.officer = true)
    (hmatch : findOfficerUser (body.officer.getD "") users = none) :
    (createCase body reqUser users cases).httpStatus = 201
    ∧ (createCase body reqUser users cases).code = none
    ∧ (createCase body reqUser users cases).created.map CaseRec.officerId
        = some none
    ∧ (createCase body reqUser users cases).officerField
        = some "Unassigned" := by
  refine ⟨?_, ?_, ?_, ?_⟩ <;>
    simp [createCase, htype, hloc, hoff, hmatch, formatOfficer]

/-- C10 witness: a concrete request naming officer `zz` against a store
holding only `Ojo`; the case is created unassigned. -/
theorem createCase_unmatched_officer_witness :
    (createCase
        ⟨some "theft", none, none, some "Wuse II", none, some "zz", none⟩
        ⟨1, "root", none, "admin", "Root", "HQ", "active", "pw"⟩
        [⟨2, "ojo", none, "officer", "Ojo", "General", "active", "pw"⟩]
        []).httpStatus = 201
    ∧ (createCase
        ⟨some "theft", none, none, some "Wuse II", none, some "zz", none⟩
        ⟨1, "root", none, "admin", "Root", "HQ", "active", "pw"⟩
        [⟨2, "ojo", none, "officer", "Ojo", "General", "active", "pw"⟩]
        []).code = none
    ∧ (createCase
        ⟨some "theft", none, none, some "Wuse II", none, some "zz", none⟩
        ⟨1, "root", none, "admin", "Root", "HQ", "active", "pw"⟩
        [⟨2, "ojo", none, "officer", "Ojo", "General", "active", "pw"⟩]
        []).created.map CaseRec.officerId = some none
    ∧ (createCase
        ⟨some "theft", none, none, some "Wuse II", none, some "zz", none⟩
        ⟨1, "root", none, "admin", "Root", "HQ", "active", "pw"⟩
        [⟨2, "ojo", none, "officer", "Ojo", "General", "active", "pw"⟩]
        []).officerField = some "Unassigned" :=
  createCase_unmatched_officer
    ⟨1, "root", none, "admin", "Root", "HQ", "active", "pw"⟩
    [⟨2, "ojo", none, "officer", "Ojo", "General", "active", "pw"⟩]
    []
    ⟨some "theft", none, none, some "Wuse II", none, some "zz", none⟩
    (by decide) (by decide) (by decide) (by decide)

end NpfCrm

